import Mathlib

/-!
Verification of the segment-annotation core of `app.py` (video emotion
annotator).  The program is embedded shallowly: the Streamlit session
state becomes an explicit map from string keys to annotation tables,
pandas DataFrames become lists of typed rows, and the Excel
serialization becomes a list of spreadsheet rows (header row followed by
cell rows).
-/

/-- Line 31: `SEGMENT_LENGTH = 15` (seconds). -/
def SEGMENT_LENGTH : Nat := 15

/-- Lines 9-16: the closed list of emotion label display strings. -/
def EMOTIONS : List String :=
  [ "尚未標記 (Pending)"
  , "Intense Conflict (極度憤怒與厭惡)"
  , "Excited Joy (以快樂和驚訝為主)"
  , "Emotional Breakdown (悲傷和恐懼伴隨痛苦跡象)"
  , "Calm Communication (持續的平靜狀態)"
  , "Not Present (角色未出現)" ]

/-- The `Pending` sentinel literal, inlined in the source at lines 10,
107 and 154. -/
def PENDING_LABEL : String := "尚未標記 (Pending)"

/-- Line 44-45 helper: Python `f"{n:02}"`, zero-padding to width 2. -/
def pad2 (n : Nat) : String :=
  if n < 10 then "0" ++ toString n else toString n

/-- Lines 44-45: format a second count as `HH:MM:SS`
(`s // 3600`, `(s % 3600) // 60`, `s % 60`, each zero-padded). -/
def format_time (s : Nat) : String :=
  pad2 (s / 3600) ++ ":" ++ pad2 ((s % 3600) / 60) ++ ":" ++ pad2 (s % 60)

/-- Lines 47-51: one element of the list built by
`generate_time_segments`: the dict with keys `"Start Time"`,
`"End Time"` and `"seconds_start"`. -/
structure Segment where
  startTime : String
  endTime : String
  seconds_start : Nat
deriving Repr, DecidableEq

/-- Line 37: `total_segments = math.ceil(duration_sec / SEGMENT_LENGTH)`,
ceiling division on naturals. -/
def total_segments (duration_sec : Nat) : Nat :=
  (duration_sec + SEGMENT_LENGTH - 1) / SEGMENT_LENGTH

/-- Line 40: `start = i * SEGMENT_LENGTH`. -/
def seg_start (i : Nat) : Nat := i * SEGMENT_LENGTH

/-- Line 41: `end = min((i + 1) * SEGMENT_LENGTH, duration_sec)`. -/
def seg_end (duration_sec i : Nat) : Nat :=
  min ((i + 1) * SEGMENT_LENGTH) duration_sec

/-- Lines 34-52: `generate_time_segments(duration_sec)`, the loop
`for i in range(total_segments)` appending one segment per index. -/
def generate_time_segments (duration_sec : Nat) : List Segment :=
  (List.range (total_segments duration_sec)).map (fun i =>
    { startTime := format_time (seg_start i)
    , endTime := format_time (seg_end duration_sec i)
    , seconds_start := seg_start i })

/-- Lines 103-109: one row of the annotation DataFrame, with columns
`"Start Time"`, `"End Time"`, `"Role"`, `"Emotion Label"`, `"Notes"`. -/
structure AnnotationRow where
  startTime : String
  endTime : String
  role : String
  emotionLabel : String
  notes : String
deriving Repr, DecidableEq

/-- A pandas DataFrame with the five fixed columns above becomes an
ordered list of rows. -/
abbrev AnnotationTable : Type := List AnnotationRow

/-- `st.session_state`: the process-wide map from string session keys to
stored annotation tables. -/
abbrev SessionState : Type := String → Option AnnotationTable

/-- The session state before any key has been initialized. -/
def emptySessionState : SessionState := fun _ => none

/-- `st.session_state[k] = t`: store `t` under key `k`. -/
def setState (st : SessionState) (k : String) (t : AnnotationTable) :
    SessionState :=
  fun q => if q = k then some t else st q

/-- Line 98: `session_key = f"data_{selected_video}_{selected_role}"`. -/
def session_key (selected_video selected_role : String) : String :=
  "data_" ++ selected_video ++ "_" ++ selected_role

/-- Lines 101-110: the `initial_data` list, one row per segment with the
segment's time labels, the selected role, the `Pending` label and empty
notes. -/
def initial_table (selected_role : String) (segments : List Segment) :
    AnnotationTable :=
  segments.map (fun seg =>
    { startTime := seg.startTime
    , endTime := seg.endTime
    , role := selected_role
    , emotionLabel := PENDING_LABEL
    , notes := "" })

/-- Lines 99-110: `if session_key not in st.session_state:` build the
initial DataFrame and store it; otherwise leave the state alone. -/
def getOrCreateTable (st : SessionState) (k : String)
    (selected_role : String) (segments : List Segment) : SessionState :=
  match st k with
  | some _ => st
  | none => setState st k (initial_table selected_role segments)

/-- Lines 147-148: `st.session_state[session_key] = edited_df` — the
commit of an externally edited table, an unconditional store. -/
def commit_edits (st : SessionState) (k : String)
    (edited_df : AnnotationTable) : SessionState :=
  setState st k edited_df

/-- Line 154: `edited_df[edited_df["Emotion Label"] == "尚未標記 (Pending)"].shape[0]`,
the number of rows still carrying the `Pending` sentinel. -/
def pending_count (df : AnnotationTable) : Nat :=
  (List.filter (fun r => r.emotionLabel == PENDING_LABEL) df).length

/-- Lines 156-159: the surfaced status is a warning (incomplete) when
`pending_count > 0` and a success (complete) otherwise. -/
def completion_status (df : AnnotationTable) : String :=
  if pending_count df > 0 then "incomplete" else "complete"

/-- The header row `df.to_excel` writes: the DataFrame's five columns. -/
def EXPORT_HEADER : List String :=
  ["Start Time", "End Time", "Role", "Emotion Label", "Notes"]

/-- The cells of one exported data row, the row's fields verbatim. -/
def row_cells (r : AnnotationRow) : List String :=
  [r.startTime, r.endTime, r.role, r.emotionLabel, r.notes]

/-- Lines 54-60: `convert_df_to_excel(df)` via
`df.to_excel(writer, index=False, sheet_name="Sheet1")`: a single sheet
holding the header row followed by one cell row per DataFrame row, in
order.  The byte stream is modelled at the level of its cell grid. -/
def convert_df_to_excel (df : AnnotationTable) : List (List String) :=
  EXPORT_HEADER :: df.map row_cells

/-- Re-parsing one spreadsheet data row back into an annotation row
(spec §8 round-trip property); succeeds exactly on five-cell rows. -/
def parse_cells : List String → Option AnnotationRow
  | [s, e, r, l, n] => some ⟨s, e, r, l, n⟩
  | _ => none

/-- Re-parsing the data rows in order; fails if any row fails. -/
def parse_rows : List (List String) → Option (List AnnotationRow)
  | [] => some []
  | c :: cs =>
      match parse_cells c, parse_rows cs with
      | some r, some rs => some (r :: rs)
      | _, _ => none

/-- Re-parsing an exported sheet: the first row must be the header, the
remaining rows are parsed in order (spec §8 round-trip property). -/
def parse_spreadsheet : List (List String) → Option AnnotationTable
  | [] => none
  | h :: rows => if h = EXPORT_HEADER then parse_rows rows else none

/-- C9: with segment length 15, duration 259 yields 18 segments, the
last spanning [255, 259) with labels "00:04:15" and "00:04:19"; duration
181 yields 13 segments, the last spanning [180, 181). -/
theorem generate_time_segments_examples :
    (generate_time_segments 259).length = 18 ∧
    (generate_time_segments 259)[17]? =
      some { startTime := "00:04:15", endTime := "00:04:19"
           , seconds_start := 255 } ∧
    seg_end 259 17 = 259 ∧
    (generate_time_segments 181).length = 13 ∧
    (generate_time_segments 181)[12]? =
      some { startTime := "00:03:00", endTime := "00:03:01"
           , seconds_start := 180 } ∧
    seg_end 181 12 = 181 := by
  refine ⟨by decide, by decide, by decide, by decide, by decide, by decide⟩

/-- C10: the key `"data_" ++ videoId ++ "_" ++ role` is not injective
over arbitrary (videoId, role) pairs: the distinct pairs ("a_b", "c")
and ("a", "b_c") collide, hence share one stored table. -/
theorem session_key_not_injective :
    ∃ v1 r1 v2 r2 : String,
      (v1, r1) ≠ (v2, r2) ∧ session_key v1 r1 = session_key v2 r2 := by
  refine ⟨ "a_b", "c", "a", "b_c", by decide, by decide⟩

/-- Any index below the segment count starts strictly inside the
duration: `i < ceil(d / 15)` gives `i * 15 < d`. -/
lemma seg_start_lt_duration {d i : Nat} (h : i < total_segments d) :
    i * SEGMENT_LENGTH < d := by
  unfold total_segments SEGMENT_LENGTH at *
  omega

/-- The running sum of segment lengths up to index `n` is
`min (n * 15) d`. -/
lemma sum_seg_lengths_aux (d : Nat) :
    ∀ n, n ≤ total_segments d →
      ((List.range n).map (fun i => seg_end d i - seg_start i)).sum
        = min (n * SEGMENT_LENGTH) d := by
  intro n
  induction n with
  | zero => intro _; simp
  | succ k ih =>
      intro h
      have hk : k * SEGMENT_LENGTH < d :=
        seg_start_lt_duration (Nat.lt_of_succ_le h)
      rw [List.range_succ, List.map_append, List.sum_append,
        ih (Nat.le_of_succ_le h)]
      simp only [List.map_cons, List.map_nil, List.sum_cons, List.sum_nil]
      unfold seg_end seg_start SEGMENT_LENGTH at *
      omega

/-- C1: for every duration `D` with segment length 15, the Segmenter
returns an ordered contiguous partition of `[0, D)`: one record per
index below `ceil(D/15)` whose fields are determined by `seg_start` and
`seg_end`, the first start is 0, each segment's end is the next
segment's start, the last end is `D`, every non-last segment has length
exactly 15, the lengths sum to `D`, and the list is empty iff `D = 0`. -/
theorem generate_time_segments_partition (D : Nat) :
    (generate_time_segments D).length = total_segments D ∧
    (∀ i, i < (generate_time_segments D).length →
      ∃ s, (generate_time_segments D)[i]? = some s ∧
        s.seconds_start = seg_start i ∧
        s.startTime = format_time (seg_start i) ∧
        s.endTime = format_time (seg_end D i)) ∧
    seg_start 0 = 0 ∧
    (∀ i, i + 1 < (generate_time_segments D).length →
      seg_end D i = seg_start (i + 1)) ∧
    (0 < (generate_time_segments D).length →
      seg_end D ((generate_time_segments D).length - 1) = D) ∧
    (∀ i, i + 1 < (generate_time_segments D).length →
      seg_end D i - seg_start i = SEGMENT_LENGTH) ∧
    ((List.range (generate_time_segments D).length).map
      (fun i => seg_end D i - seg_start i)).sum = D ∧
    (generate_time_segments D = [] ↔ D = 0) := by
  have hlen : (generate_time_segments D).length = total_segments D := by
    simp [generate_time_segments]
  refine ⟨hlen, ?_, by simp [seg_start], ?_, ?_, ?_, ?_, ?_⟩
  · intro i hi
    rw [hlen] at hi
    have hget : (generate_time_segments D)[i]? =
        some { startTime := format_time (seg_start i)
             , endTime := format_time (seg_end D i)
             , seconds_start := seg_start i } := by
      simp [generate_time_segments, List.getElem?_map, List.getElem?_range, hi]
    exact ⟨_, hget, rfl, rfl, rfl⟩
  · intro i hi
    rw [hlen] at hi
    have h1 : (i + 1) * SEGMENT_LENGTH < D := seg_start_lt_duration hi
    simp only [seg_end, seg_start]
    exact Nat.min_eq_left (Nat.le_of_lt h1)
  · intro hpos
    rw [hlen] at hpos ⊢
    have h2 : D ≤ total_segments D * SEGMENT_LENGTH := by
      unfold total_segments SEGMENT_LENGTH
      omega
    have h3 : total_segments D - 1 + 1 = total_segments D :=
      Nat.succ_pred_eq_of_pos hpos
    simp only [seg_end, h3]
    exact Nat.min_eq_right h2
  · intro i hi
    rw [hlen] at hi
    have h1 : (i + 1) * SEGMENT_LENGTH < D := seg_start_lt_duration hi
    simp only [seg_end, seg_start]
    rw [Nat.min_eq_left (Nat.le_of_lt h1)]
    unfold SEGMENT_LENGTH
    omega
  · rw [hlen, sum_seg_lengths_aux D (total_segments D) (Nat.le_refl _)]
    unfold total_segments SEGMENT_LENGTH
    omega
  · rw [← List.length_eq_zero, hlen]
    unfold total_segments SEGMENT_LENGTH
    omega

/-- Witness for `generate_time_segments_partition`, instantiated at
duration 259. -/
theorem generate_time_segments_partition_witness :
    seg_end 259 0 = seg_start 1 ∧ seg_end 259 17 = 259 ∧
    ((List.range (generate_time_segments 259).length).map
      (fun i => seg_end 259 i - seg_start i)).sum = 259 := by
  obtain ⟨-, -, -, h4, h5, -, h7, -⟩ := generate_time_segments_partition 259
  refine ⟨h4 0 (by decide), ?_, h7⟩
  have := h5 (by decide)
  simpa using this

/-- Committing a key never changes what is stored under any other key. -/
lemma setState_other {st : SessionState} {k q : String}
    {t : AnnotationTable} (h : q ≠ k) : setState st k t q = st q := by
  unfold setState
  rw [if_neg h]

/-- The key derivation is injective in the role for a fixed video: the
prefix `"data_" ++ v ++ "_"` is common, so equal keys force equal
roles. -/
lemma session_key_inj_role {v r1 r2 : String}
    (h : session_key v r1 = session_key v r2) : r1 = r2 := by
  unfold session_key at h
  have hd := congrArg String.data h
  simp only [String.data_append, List.append_assoc] at hd
  apply String.ext
  exact List.append_cancel_left (List.append_cancel_left
    (List.append_cancel_left hd))

/-- C3: table creation is idempotent per key: when a table is already
stored under `k`, a further access leaves the whole state unchanged and
returns the stored table, whatever role and segments are supplied; in
particular a second access after a first one changes nothing. -/
theorem getOrCreateTable_idempotent (st : SessionState) (k : String)
    (t : AnnotationTable) (role1 : String) (segs1 : List Segment)
    (role2 : String) (segs2 : List Segment)
    (h : st k = some t) :
    getOrCreateTable st k role2 segs2 = st ∧
    (getOrCreateTable st k role2 segs2) k = some t ∧
    getOrCreateTable (getOrCreateTable st k role1 segs1) k role2 segs2
      = getOrCreateTable st k role1 segs1 := by
  have h1 : getOrCreateTable st k role2 segs2 = st := by
    unfold getOrCreateTable
    rw [h]
  have h2 : getOrCreateTable st k role1 segs1 = st := by
    unfold getOrCreateTable
    rw [h]
  refine ⟨h1, by rw [h1, h], by rw [h2, h1]⟩

/-- Witness for `getOrCreateTable_idempotent`: a state holding an empty
table under "k" is left unchanged by further accesses with fresh role
and segment arguments. -/
theorem getOrCreateTable_idempotent_witness :
    getOrCreateTable (setState emptySessionState "k" []) "k" "Nicole"
        (generate_time_segments 259) = setState emptySessionState "k" [] ∧
    (getOrCreateTable (setState emptySessionState "k" []) "k" "Nicole"
        (generate_time_segments 259)) "k" = some [] ∧
    getOrCreateTable
        (getOrCreateTable (setState emptySessionState "k" []) "k" "Charlie" [])
        "k" "Nicole" (generate_time_segments 259)
      = getOrCreateTable (setState emptySessionState "k" []) "k" "Charlie" [] :=
  getOrCreateTable_idempotent (setState emptySessionState "k" []) "k" []
    "Charlie" [] "Nicole" (generate_time_segments 259) (by decide)

/-- C4: on a key not yet stored, the first access stores a table with
exactly one row per segment, in segment order, each row carrying the
segment's time labels, the supplied role, the `Pending` label and empty
notes. -/
theorem getOrCreateTable_creates (st : SessionState) (k : String)
    (selected_role : String) (segments : List Segment)
    (h : st k = none) :
    (getOrCreateTable st k selected_role segments) k
      = some (initial_table selected_role segments) ∧
    (initial_table selected_role segments).length = segments.length ∧
    (∀ (i : Nat) (seg : Segment), segments[i]? = some seg →
      (initial_table selected_role segments)[i]? =
        some (AnnotationRow.mk seg.startTime seg.endTime selected_role
          PENDING_LABEL "")) := by
  refine ⟨?_, by simp [initial_table], ?_⟩
  · simp [getOrCreateTable, h, setState]
  · intro i seg hseg
    simp [initial_table, List.getElem?_map, hseg]

/-- Witness for `getOrCreateTable_creates`: first access on the empty
state under the Marriage Story / Nicole key. -/
theorem getOrCreateTable_creates_witness :
    (getOrCreateTable emptySessionState
        (session_key "Marriage Story" "Nicole") "Nicole"
        (generate_time_segments 259))
        (session_key "Marriage Story" "Nicole")
      = some (initial_table "Nicole" (generate_time_segments 259)) :=
  (getOrCreateTable_creates emptySessionState
    (session_key "Marriage Story" "Nicole") "Nicole"
    (generate_time_segments 259) rfl).1

/-- C5: `pending_count` counts exactly the rows at the `Pending`
sentinel; on a freshly created table it equals the segment count; it is
0 on any table with no `Pending` row; the surfaced status is "complete"
iff the count is 0 and "incomplete" iff it is positive. -/
theorem pending_count_spec :
    (∀ df : AnnotationTable,
      pending_count df
        = List.countP (fun r => r.emotionLabel == PENDING_LABEL) df) ∧
    (∀ (selected_role : String) (segments : List Segment),
      pending_count (initial_table selected_role segments)
        = segments.length) ∧
    (∀ df : AnnotationTable,
      (∀ r ∈ df, r.emotionLabel ≠ PENDING_LABEL) → pending_count df = 0) ∧
    (∀ df : AnnotationTable,
      (completion_status df = "complete" ↔ pending_count df = 0) ∧
      (completion_status df = "incomplete" ↔ 0 < pending_count df)) := by
  refine ⟨?_, ?_, ?_, ?_⟩
  · intro df
    rw [pending_count, List.countP_eq_length_filter]
  · intro selected_role segments
    simp [pending_count, initial_table, List.filter_map, Function.comp]
  · intro df h
    simp only [pending_count, List.length_eq_zero, List.filter_eq_nil_iff]
    intro r hr
    simpa using h r hr
  · intro df
    rcases Nat.eq_zero_or_pos (pending_count df) with h0 | h0
    · rw [completion_status, h0]
      simp
    · rw [completion_status, if_pos h0]
      constructor
      · constructor
        · intro hc
          exact absurd hc (by decide)
        · intro hz
          omega
      · exact ⟨fun _ => h0, fun _ => rfl⟩

/-- Witness for `pending_count_spec`: a one-row table whose label is
`Not Present` has no pending rows. -/
theorem pending_count_spec_witness :
    pending_count
      [ AnnotationRow.mk "00:00:00" "00:00:15" "Nicole"
          "Not Present (角色未出現)" "" ] = 0 :=
  pending_count_spec.2.2.1
    [ AnnotationRow.mk "00:00:00" "00:00:15" "Nicole"
        "Not Present (角色未出現)" "" ] (by decide)

/-- Parsing the exported data rows recovers the original rows. -/
lemma parse_rows_map_row_cells (df : List AnnotationRow) :
    parse_rows (df.map row_cells) = some df := by
  induction df with
  | nil => rfl
  | cons r t ih => simp [parse_rows, row_cells, parse_cells, ih]

/-- C6: the exported sheet is the fixed header row followed by one cell
row per table row in order, cells verbatim, and re-parsing the sheet
recovers the table field-by-field in the same order. -/
theorem convert_df_to_excel_roundtrip (df : AnnotationTable) :
    (convert_df_to_excel df).head? = some EXPORT_HEADER ∧
    (convert_df_to_excel df).length = df.length + 1 ∧
    (convert_df_to_excel df).drop 1 = df.map row_cells ∧
    parse_spreadsheet (convert_df_to_excel df) = some df := by
  refine ⟨rfl, by simp [convert_df_to_excel], rfl, ?_⟩
  show parse_spreadsheet (EXPORT_HEADER :: df.map row_cells) = some df
  rw [parse_spreadsheet, if_pos rfl]
  exact parse_rows_map_row_cells df

/-- C7: for one video and two distinct roles the two session keys
differ, so a commit under one key leaves the table stored under the
other key untouched. -/
theorem roles_independent_tables (st : SessionState)
    (v r1 r2 : String) (t : AnnotationTable)
    (h : r1 ≠ r2) :
    session_key v r1 ≠ session_key v r2 ∧
    (commit_edits st (session_key v r1) t) (session_key v r2)
      = st (session_key v r2) := by
  have hk : session_key v r1 ≠ session_key v r2 :=
    fun he => h (session_key_inj_role he)
  exact ⟨hk, setState_other (fun he => hk he.symm)⟩

/-- Witness for `roles_independent_tables`: Marriage Story with roles
Nicole and Charlie. -/
theorem roles_independent_tables_witness :
    session_key "Marriage Story" "Nicole"
      ≠ session_key "Marriage Story" "Charlie" ∧
    (commit_edits emptySessionState
        (session_key "Marriage Story" "Nicole") [])
      (session_key "Marriage Story" "Charlie")
      = emptySessionState (session_key "Marriage Story" "Charlie") :=
  roles_independent_tables emptySessionState "Marriage Story" "Nicole"
    "Charlie" [] (by decide)

/-- The one-row stored table used to exercise the commit path. -/
def cex_stored : AnnotationTable :=
  [ AnnotationRow.mk "00:00:00" "00:00:15" "Nicole" "尚未標記 (Pending)" "" ]

/-- An edited table with a different row count and a label outside the
EMOTIONS enumeration. -/
def cex_edited : AnnotationTable :=
  [ AnnotationRow.mk "00:00:00" "00:00:15" "Nicole" "尚未標記 (Pending)" ""
  , AnnotationRow.mk "00:00:15" "00:00:30" "Nicole" "Invalid" "" ]

/-- C2 counterexample: the commit at lines 147-148 performs no
validation.  With a one-row table stored under "k", committing a two-row
table containing a label outside EMOTIONS succeeds and replaces the
stored table, instead of failing with ShapeMismatch or InvalidLabel and
leaving the stored table unchanged. -/
theorem commit_edits_no_validation_cex :
    cex_edited.length ≠ cex_stored.length ∧
    (∃ r ∈ cex_edited, r.emotionLabel ∉ EMOTIONS) ∧
    (commit_edits (setState emptySessionState "k" cex_stored) "k"
        cex_edited) "k" = some cex_edited ∧
    cex_edited ≠ cex_stored := by
  refine ⟨by decide, by decide, by decide, by decide⟩

/-- C2 amended: the commit is an unconditional wholesale replacement:
for every state, key and edited table it stores the edited table under
the key exactly (so it is never partially applied) and leaves every
other key's table untouched; no ShapeMismatch or InvalidLabel check
exists. -/
theorem commit_edits_wholesale (st : SessionState) (k : String)
    (edited_df : AnnotationTable) :
    (commit_edits st k edited_df) k = some edited_df ∧
    ∀ q, q ≠ k → (commit_edits st k edited_df) q = st q := by
  constructor
  · unfold commit_edits setState
    rw [if_pos rfl]
  · intro q hq
    exact setState_other hq

/-- Witness for `commit_edits_wholesale` at concrete keys. -/
theorem commit_edits_wholesale_witness :
    (commit_edits emptySessionState "k" cex_edited) "k" = some cex_edited ∧
    (commit_edits emptySessionState "k" cex_edited) "q"
      = emptySessionState "q" := by
  obtain ⟨h1, h2⟩ := commit_edits_wholesale emptySessionState "k" cex_edited
  exact ⟨h1, h2 "q" (by decide)⟩

/-- C8 counterexample: exporting the empty table does not fail — lines
54-60 have no error path, and the result is the header-only sheet, a
spreadsheet byte stream rather than a SerializationError. -/
theorem convert_df_to_excel_empty_cex :
    convert_df_to_excel [] = [EXPORT_HEADER] := rfl

/-- C8 amended: export of an empty table succeeds and yields the sheet
with the header row and no data rows; export is total (one header row
plus one row per table row on every input) and pure, so it cannot
affect the stored table state. -/
theorem convert_df_to_excel_total :
    convert_df_to_excel [] = [EXPORT_HEADER] ∧
    (∀ df : AnnotationTable,
      (convert_df_to_excel df).length = df.length + 1) ∧
    (∀ df : AnnotationTable,
      (convert_df_to_excel df).drop 1 = df.map row_cells) := by
  exact ⟨rfl, fun df => by simp [convert_df_to_excel], fun df => rfl⟩
